import Mathlib

/-!
Shallow embedding of the rover terminal directory browser
(src/src/rover/mod.rs): the navigation state machine (DirScraper),
the selection/list component (Rover), the entry catalog (read_dir)
and the controller loop body (run).

The filesystem, the key-event source and the external file opener are
modelled as explicit parameters (structure FS, inductive Event).
Rust panics (assert!, unwrap on Err/None, todo!, arithmetic underflow,
remainder by zero) are modelled by the Res.panic outcome; Result::Err
by Res.err.
-/

namespace RoverModel

/-- Filesystem paths, modelled as the list of path components below the
root; the root directory is the empty list. -/
abbrev Path := List String

/-- Rust Path::parent: none at the root, otherwise the path with its last
component removed. -/
def Path.parent : Path → Option Path
  | [] => none
  | ps => some ps.dropLast

/-- Rendering of a path used inside error message strings
(Rust path.display()). -/
def Path.render (p : Path) : String := String.intercalate "/" p

/-- The ambient filesystem and the external file-open collaborator:
pathExists/isDir model Path::exists and Path::is_dir, children models
fs::read_dir enumeration (the paths of the direct children), openErr
models opener::open (none = success, some e = failure message). -/
structure FS where
  pathExists : Path → Bool
  isDir : Path → Bool
  children : Path → List Path
  openErr : Path → Option String

/-- Outcome of one fallible operation: Rust Ok(()), Err(String), or a
panic (assert! failure, .unwrap() on Err/None, todo!()). -/
inductive Res where
  | ok : Res
  | err : String → Res
  | panic : Res
deriving DecidableEq, Repr

/-- Rust .unwrap() applied to a Result: Ok passes through, Err panics. -/
def Res.unwrap : Res → Res
  | Res.ok => Res.ok
  | Res.err _ => Res.panic
  | Res.panic => Res.panic

/-- enum ListEntryKind { Dir, File, Parent } -/
inductive ListEntryKind where
  | Dir : ListEntryKind
  | File : ListEntryKind
  | Parent : ListEntryKind
deriving DecidableEq, Repr

/-- struct ListEntry { dir_entry: PathBuf, kind: ListEntryKind } -/
structure ListEntry where
  dir_entry : Path
  kind : ListEntryKind
deriving DecidableEq, Repr

/-- ListEntry::from_dir_entry: classifies a child path as Dir or File by
the filesystem metadata check dir_entry.is_dir(). -/
def ListEntry.from_dir_entry (fs : FS) (dir_entry : Path) : ListEntry :=
  { dir_entry := dir_entry,
    kind := if fs.isDir dir_entry then ListEntryKind.Dir else ListEntryKind.File }

/-- ListEntry::parent: the synthetic Parent entry. -/
def ListEntry.parent (dir_entry : Path) : ListEntry :=
  { dir_entry := dir_entry, kind := ListEntryKind.Parent }

/-- struct Context { offset, pivot, max_visible_rows } -/
structure Context where
  offset : Nat
  pivot : Option Nat
  max_visible_rows : Nat
deriving DecidableEq, Repr

/-- enum Direction { Up, Down } -/
inductive Direction where
  | Up : Direction
  | Down : Direction
deriving DecidableEq, Repr

/-- struct Rover<C> { components: Option<Vec<C>>, ctx: Context } -/
structure Rover (C : Type) where
  components : Option (List C)
  ctx : Context
deriving DecidableEq, Repr

/-- Rover::len: length of the component list, 0 when unloaded. -/
def Rover.len {C : Type} (r : Rover C) : Nat :=
  (r.components.map List.length).getD 0

/-- Rover::new(height) -/
def Rover.new (C : Type) (height : Nat) : Rover C :=
  { components := none,
    ctx := { offset := 0, pivot := none, max_visible_rows := height } }

/-- Rover::reset: replaces the component list wholesale. -/
def Rover.reset {C : Type} (r : Rover C) (new_components : List C) : Rover C :=
  { r with components := some new_components }

/-- Rover::set_selected: the source asserts 0 <= idx < len and panics
otherwise, then sets the pivot. -/
def Rover.set_selected {C : Type} (r : Rover C) (idx : Nat) : Rover C × Res :=
  if idx < r.len then
    ({ r with ctx := { r.ctx with pivot := some idx } }, Res.ok)
  else
    (r, Res.panic)

/-- Rover::shift: cyclic move of the pivot. The source unwraps the pivot
(panic when none); moving up from 0 sets len - 1 (usize underflow panic
when len = 0); moving down computes (pivot + 1) % len (remainder-by-zero
panic when len = 0). -/
def Rover.shift {C : Type} (r : Rover C) (d : Direction) : Rover C × Res :=
  match r.ctx.pivot with
  | none => (r, Res.panic)
  | some p =>
    match d with
    | Direction.Up =>
      if p = 0 then
        if r.len = 0 then (r, Res.panic)
        else ({ r with ctx := { r.ctx with pivot := some (r.len - 1) } }, Res.ok)
      else
        ({ r with ctx := { r.ctx with pivot := some (p - 1) } }, Res.ok)
    | Direction.Down =>
      if r.len = 0 then (r, Res.panic)
      else ({ r with ctx := { r.ctx with pivot := some ((p + 1) % r.len) } }, Res.ok)

/-- Rover::selected_ref: Option-total lookup of the selected component
(None when the list is unloaded, the pivot is unset, or out of bounds). -/
def Rover.selected_ref {C : Type} (r : Rover C) : Option C :=
  r.components.bind (fun cs => r.ctx.pivot.bind (fun p => cs[p]?))

/-- Rover::render: unwraps the component list (panic when none, modelled
as the none row list), takes the window components[offset ..
offset + max_visible_rows], and marks as selected the row whose
window-relative index equals the pivot, exactly as the source's
skip/take/enumerate/map chain does. The rover state is not mutated. -/
def Rover.render {C : Type} (r : Rover C) : Rover C × Option (List (Bool × C)) :=
  (r, r.components.map (fun cs =>
    (((cs.drop r.ctx.offset).take r.ctx.max_visible_rows).enum).map
      (fun ic => ((r.ctx.pivot.map (fun p => p == ic.1)).getD false, ic.2))))

/-- Rover::resize is todo!(): an unconditional panic. -/
def Rover.resize {C : Type} (r : Rover C) (w h : Nat) : Rover C × Res :=
  let _ := w
  let _ := h
  (r, Res.panic)

/-- struct Rect { x, y, w, h } -/
structure Rect where
  x : Nat
  y : Nat
  w : Nat
  h : Nat
deriving DecidableEq, Repr

/-- Rect::resize -/
def Rect.resize (r : Rect) (w h : Nat) : Rect :=
  { r with w := w, h := h }

/-- enum Mode { Flow, Command } -/
inductive Mode where
  | Flow : Mode
  | Command : Mode
deriving DecidableEq, Repr

/-- struct DirScraper { should_exit, current_path, rover, mode,
terminal_dimens } -/
structure DirScraper where
  should_exit : Bool
  current_path : Option Path
  rover : Rover ListEntry
  mode : Mode
  terminal_dimens : Rect
deriving DecidableEq, Repr

/-- DirScraper::read_dir: errors when the path does not exist or is not a
directory; otherwise the synthetic Parent entry (target
path.parent().unwrap_or(path)) followed by one classified entry per
direct child. -/
def DirScraper.read_dir (fs : FS) (path : Path) : Except String (List ListEntry) :=
  if !fs.pathExists path then
    Except.error ("Given path doesn't exist: '" ++ Path.render path ++ "'.")
  else if !fs.isDir path then
    Except.error ("Given path is not a directory: '" ++ Path.render path ++ "'.")
  else
    Except.ok (ListEntry.parent ((Path.parent path).getD path) ::
      (fs.children path).map (ListEntry.from_dir_entry fs))

/-- DirScraper::goto: early-returns when the target does not exist; then
the source assigns current_path = Some(selected_path) BEFORE the
entries? check, so a read_dir failure leaves current_path already
updated; on success the rover is reset and the pivot set to 0. -/
def DirScraper.goto (fs : FS) (s : DirScraper) (selected_path : Path) :
    DirScraper × Res :=
  if !fs.pathExists selected_path then
    (s, Res.err ("Chosen folder '" ++ Path.render selected_path ++ "' doesn't exist."))
  else
    let entries := DirScraper.read_dir fs selected_path
    let s1 : DirScraper := { s with current_path := some selected_path }
    match entries with
    | Except.error e => (s1, Res.err e)
    | Except.ok v =>
      let s2 : DirScraper := { s1 with rover := s1.rover.reset v }
      let pr := s2.rover.set_selected 0
      ({ s2 with rover := pr.1 }, pr.2)

/-- DirScraper::to_parent_entry: takes current_path out of the struct
(unwrap panics when none), walks ancestors (the first ancestor is the
path itself and always exists, so the first ok_or never fires), errors
at the root, otherwise calls goto on the parent, restoring current_path
on a goto error via map_err. -/
def DirScraper.to_parent_entry (fs : FS) (s : DirScraper) : DirScraper × Res :=
  match s.current_path with
  | none => (s, Res.panic)
  | some current_path =>
    let s0 : DirScraper := { s with current_path := none }
    match Path.parent current_path with
    | none =>
      ({ s0 with current_path := some current_path },
       Res.err "Cannot move back from root folder.")
    | some parent_entry =>
      let pr := DirScraper.goto fs s0 parent_entry
      match pr.2 with
      | Res.err e => ({ pr.1 with current_path := some current_path }, Res.err e)
      | r => (pr.1, r)

/-- DirScraper::execute_entry: when selected_ref is None, returns Ok(())
with no state change and nothing opened; on a Dir or Parent entry calls
goto on its path; on a File entry delegates to the external opener.
The third component lists the paths handed to the opener. -/
def DirScraper.execute_entry (fs : FS) (s : DirScraper) :
    DirScraper × Res × List Path :=
  match s.rover.selected_ref with
  | none => (s, Res.ok, [])
  | some selected =>
    match selected.kind with
    | ListEntryKind.Dir =>
      let pr := DirScraper.goto fs s selected.dir_entry
      (pr.1, pr.2, [])
    | ListEntryKind.Parent =>
      let pr := DirScraper.goto fs s selected.dir_entry
      (pr.1, pr.2, [])
    | ListEntryKind.File =>
      match fs.openErr selected.dir_entry with
      | some e =>
        (s, Res.err ("Error opening the file '" ++ Path.render selected.dir_entry
          ++ "': " ++ e), [selected.dir_entry])
      | none => (s, Res.ok, [selected.dir_entry])

/-- One decoded input event of the controller loop (DirScraper::run). -/
inductive Event where
  | key_char : Char → Bool → Event
  | key_up : Event
  | key_down : Event
  | key_enter : Event
  | key_esc : Event
  | resize : Nat → Nat → Event
  | other : Event
deriving DecidableEq, Repr

/-- The event dispatch of one iteration of DirScraper::run: Ctrl-q/Q sets
should_exit, Ctrl-c/f switch the mode, Ctrl-k and Enter run
execute_entry and UNWRAP its result (an Err panics), j/k and the arrow
keys shift, Esc runs to_parent_entry and UNWRAPS its result, a resize
event only updates the terminal dimensions. -/
def DirScraper.handle_event (fs : FS) (s : DirScraper) (e : Event) :
    DirScraper × Res :=
  match e with
  | Event.key_char c control =>
    if control then
      if c = 'q' ∨ c = 'Q' then ({ s with should_exit := true }, Res.ok)
      else if c = 'c' then ({ s with mode := Mode.Command }, Res.ok)
      else if c = 'f' then ({ s with mode := Mode.Flow }, Res.ok)
      else if c = 'k' then
        let pr := DirScraper.execute_entry fs s
        (pr.1, Res.unwrap pr.2.1)
      else (s, Res.ok)
    else
      if c.toLower = 'j' then
        let pr := s.rover.shift Direction.Down
        ({ s with rover := pr.1 }, pr.2)
      else if c.toLower = 'k' then
        let pr := s.rover.shift Direction.Up
        ({ s with rover := pr.1 }, pr.2)
      else (s, Res.ok)
  | Event.key_up =>
    let pr := s.rover.shift Direction.Up
    ({ s with rover := pr.1 }, pr.2)
  | Event.key_down =>
    let pr := s.rover.shift Direction.Down
    ({ s with rover := pr.1 }, pr.2)
  | Event.key_enter =>
    let pr := DirScraper.execute_entry fs s
    (pr.1, Res.unwrap pr.2.1)
  | Event.key_esc =>
    let pr := DirScraper.to_parent_entry fs s
    (pr.1, Res.unwrap pr.2)
  | Event.resize w h =>
    ({ s with terminal_dimens := s.terminal_dimens.resize w h }, Res.ok)
  | Event.other => (s, Res.ok)

/-- One full iteration of the loop body of DirScraper::run: dispatch the
event, then render (which panics if the component list was never
loaded). The loop then breaks exactly when should_exit is set. -/
def DirScraper.run_step (fs : FS) (s : DirScraper) (e : Event) :
    DirScraper × Res :=
  let pr := DirScraper.handle_event fs s e
  match pr.2 with
  | Res.ok =>
    match (pr.1.rover.render).2 with
    | none => (pr.1, Res.panic)
    | some _ => (pr.1, Res.ok)
  | r => (pr.1, r)

/-- Loop-continuation test at the bottom of DirScraper::run. -/
def DirScraper.loop_continues (s : DirScraper) : Bool :=
  !s.should_exit

/-- Folding a sequence of shift operations over a rover (states only). -/
def Rover.apply_shifts {C : Type} (r : Rover C) (ds : List Direction) : Rover C :=
  ds.foldl (fun acc d => (acc.shift d).1) r

/-! Concrete fixtures used by witnesses and counterexamples. -/

/-- A 3-entry file list. -/
def entriesABC : List ListEntry :=
  [{ dir_entry := ["a"], kind := ListEntryKind.File },
   { dir_entry := ["b"], kind := ListEntryKind.File },
   { dir_entry := ["c"], kind := ListEntryKind.File }]

/-- A rover holding three entries, pivot on the first, ample height. -/
def roverABC : Rover ListEntry :=
  { components := some entriesABC,
    ctx := { offset := 0, pivot := some 0, max_visible_rows := 24 } }

/-- A rover whose visible capacity (1 row) is smaller than its list. -/
def roverTall : Rover ListEntry :=
  { components := some (List.take 2 entriesABC),
    ctx := { offset := 0, pivot := some 0, max_visible_rows := 1 } }

/-- A filesystem in which the path f exists but is a plain file. -/
def fsFile : FS :=
  { pathExists := fun p => p == ["f"],
    isDir := fun _ => false,
    children := fun _ => [],
    openErr := fun _ => none }

/-- A scraper currently displaying directory a. -/
def scraperA : DirScraper :=
  { should_exit := false,
    current_path := some ["a"],
    rover := roverABC,
    mode := Mode.Flow,
    terminal_dimens := { x := 0, y := 0, w := 80, h := 24 } }

/-- A filesystem with directory d containing subdirectory d/sub and file
d/f. -/
def fsD : FS :=
  { pathExists := fun p => p == ["d"] || p == ["d", "sub"] || p == ["d", "f"],
    isDir := fun p => p == ["d"] || p == ["d", "sub"],
    children := fun p => if p == ["d"] then [["d", "sub"], ["d", "f"]] else [],
    openErr := fun _ => none }

/-- A scraper displaying directory d with the pivot on the subdirectory
entry (index 1). -/
def scraperD : DirScraper :=
  { should_exit := false,
    current_path := some ["d"],
    rover :=
      { components := some
          [ListEntry.parent [],
           { dir_entry := ["d", "sub"], kind := ListEntryKind.Dir },
           { dir_entry := ["d", "f"], kind := ListEntryKind.File }],
        ctx := { offset := 0, pivot := some 1, max_visible_rows := 24 } },
    mode := Mode.Flow,
    terminal_dimens := { x := 0, y := 0, w := 80, h := 24 } }

/-- A filesystem whose root (the empty path) is a directory with one
child. -/
def fsRoot : FS :=
  { pathExists := fun p => p == [] || p == ["a"],
    isDir := fun p => p == [],
    children := fun p => if p == [] then [["a"]] else [],
    openErr := fun _ => none }

/-- A scraper currently displaying the filesystem root. -/
def scraperRoot : DirScraper :=
  { should_exit := false,
    current_path := some [],
    rover := roverABC,
    mode := Mode.Flow,
    terminal_dimens := { x := 0, y := 0, w := 80, h := 24 } }

/-- A scraper whose entry list was never loaded. -/
def scraperUnloaded : DirScraper :=
  { should_exit := false,
    current_path := some ["a"],
    rover := Rover.new ListEntry 24,
    mode := Mode.Flow,
    terminal_dimens := { x := 0, y := 0, w := 80, h := 24 } }

/-! Helper lemmas shared by the claim theorems. -/

/-- Shifting never touches the component list. -/
theorem shift_components_eq {C : Type} (r : Rover C) (d : Direction) :
    ((r.shift d).1).components = r.components := by
  cases hp : r.ctx.pivot with
  | none => simp [Rover.shift, hp]
  | some p =>
    cases d with
    | Up =>
      by_cases h0 : p = 0
      · by_cases hl : r.len = 0 <;> simp [Rover.shift, hp, h0, hl]
      · simp [Rover.shift, hp, h0]
    | Down =>
      by_cases hl : r.len = 0 <;> simp [Rover.shift, hp, hl]

/-- Shifting preserves the component count. -/
theorem shift_len_eq {C : Type} (r : Rover C) (d : Direction) :
    ((r.shift d).1).len = r.len := by
  unfold Rover.len
  rw [shift_components_eq]

/-- Shifting never touches the viewport offset. -/
theorem shift_offset_eq {C : Type} (r : Rover C) (d : Direction) :
    ((r.shift d).1).ctx.offset = r.ctx.offset := by
  cases hp : r.ctx.pivot with
  | none => simp [Rover.shift, hp]
  | some p =>
    cases d with
    | Up =>
      by_cases h0 : p = 0
      · by_cases hl : r.len = 0 <;> simp [Rover.shift, hp, h0, hl]
      · simp [Rover.shift, hp, h0]
    | Down =>
      by_cases hl : r.len = 0 <;> simp [Rover.shift, hp, hl]

/-- A sequence of shifts never touches the viewport offset. -/
theorem apply_shifts_offset {C : Type} (r : Rover C) (ds : List Direction) :
    (Rover.apply_shifts r ds).ctx.offset = r.ctx.offset := by
  induction ds generalizing r with
  | nil => rfl
  | cons d ds ih =>
    show (Rover.apply_shifts ((r.shift d).1) ds).ctx.offset = r.ctx.offset
    rw [ih, shift_offset_eq]

/-- Evaluation of shift Down at a set pivot on a non-empty list. -/
theorem shift_down_pivot {C : Type} (r : Rover C) (q : Nat)
    (hq : r.ctx.pivot = some q) (hl : r.len ≠ 0) :
    (r.shift Direction.Down).1.ctx.pivot = some ((q + 1) % r.len) := by
  simp [Rover.shift, hq, hl]

/-- Evaluation of shift Up at pivot 0 on a non-empty list. -/
theorem shift_up_pivot_zero {C : Type} (r : Rover C)
    (hq : r.ctx.pivot = some 0) (hl : r.len ≠ 0) :
    (r.shift Direction.Up).1.ctx.pivot = some (r.len - 1) := by
  simp [Rover.shift, hq, hl]

/-- Evaluation of shift Up at a positive pivot. -/
theorem shift_up_pivot_pos {C : Type} (r : Rover C) (q : Nat)
    (hq : r.ctx.pivot = some q) (h0 : q ≠ 0) :
    (r.shift Direction.Up).1.ctx.pivot = some (q - 1) := by
  simp [Rover.shift, hq, h0]

/-- Path.parent of a path extended by one component recovers the path. -/
theorem parent_append_singleton (D : Path) (name : String) :
    Path.parent (D ++ [name]) = some D := by
  cases D with
  | nil => rfl
  | cons d ds =>
    show Path.parent (d :: (ds ++ [name])) = some (d :: ds)
    have h : (d :: (ds ++ [name])).dropLast = d :: ds := by
      rw [← List.cons_append, List.dropLast_concat]
    simp [Path.parent, h]

/-- A goto whose target exists and is a directory replaces current_path,
reloads the entry list and resets the pivot to 0. -/
theorem goto_valid (fs : FS) (s : DirScraper) (q : Path)
    (hex : fs.pathExists q = true) (hdir : fs.isDir q = true) :
    DirScraper.goto fs s q =
      ({ s with current_path := some q,
                rover := { components := some (ListEntry.parent ((Path.parent q).getD q) ::
                             (fs.children q).map (ListEntry.from_dir_entry fs)),
                           ctx := { s.rover.ctx with pivot := some 0 } } }, Res.ok) := by
  simp [DirScraper.goto, DirScraper.read_dir, hex, hdir, Rover.reset,
    Rover.set_selected, Rover.len]

/-! Claim theorems. -/

/-- Claim C1, counterexample: goto on a path that exists but is not a
directory returns the NotADirectory error, yet current_path has been
overwritten with the invalid target (it was a, it becomes f), because
the source assigns current_path before the entries? check. Navigation
is therefore not all-or-nothing. -/
theorem claim1_counterexample :
    fsFile.pathExists ["f"] = true ∧ fsFile.isDir ["f"] = false ∧
    (DirScraper.goto fsFile scraperA ["f"]).2 =
      Res.err "Given path is not a directory: 'f'." ∧
    scraperA.current_path = some (["a"] : Path) ∧
    (DirScraper.goto fsFile scraperA ["f"]).1.current_path = some (["f"] : Path) := by
  decide

/-- Claim C1, amended: goto on an invalid target always returns an error
and leaves the entry list and pivot (the whole rover) unchanged; when
the target does not exist the whole state is unchanged, but when the
target exists and is not a directory, current_path is overwritten with
the target. -/
theorem claim1_goto_invalid (fs : FS) (s : DirScraper) (q : Path)
    (h : ¬(fs.pathExists q = true ∧ fs.isDir q = true)) :
    ∃ m, DirScraper.goto fs s q =
      (if fs.pathExists q then { s with current_path := some q } else s,
       Res.err m) := by
  cases hex : fs.pathExists q with
  | false =>
    refine ⟨"Chosen folder '" ++ Path.render q ++ "' doesn't exist.", ?_⟩
    simp [DirScraper.goto, hex]
  | true =>
    have hdir : fs.isDir q = false := by
      cases hd : fs.isDir q
      · rfl
      · exact absurd ⟨hex, hd⟩ h
    refine ⟨"Given path is not a directory: '" ++ Path.render q ++ "'.", ?_⟩
    simp [DirScraper.goto, DirScraper.read_dir, hex, hdir]

/-- Claim C1, witness for the amended theorem at the concrete
counterexample input. -/
theorem claim1_goto_invalid_witness :
    ∃ m, DirScraper.goto fsFile scraperA ["f"] =
      (if fsFile.pathExists ["f"] then
        { scraperA with current_path := some (["f"] : Path) } else scraperA,
       Res.err m) :=
  claim1_goto_invalid fsFile scraperA ["f"] (by decide)

/-- Claim C2: REFUTED by the code. Pressing Esc at the filesystem root
makes to_parent_entry return the AtRoot error, and the run loop calls
.unwrap() on it, which panics and terminates the process instead of
reporting the error and continuing. (Ctrl-q by contrast ends the loop
normally via should_exit.) -/
theorem claim2_loop_panics :
    (DirScraper.to_parent_entry fsRoot scraperRoot).2 =
      Res.err "Cannot move back from root folder." ∧
    (DirScraper.run_step fsRoot scraperRoot Event.key_esc).2 = Res.panic ∧
    (DirScraper.run_step fsRoot scraperRoot (Event.key_char 'q' true)).2 = Res.ok ∧
    (DirScraper.run_step fsRoot scraperRoot (Event.key_char 'q' true)).1.should_exit
      = true ∧
    DirScraper.loop_continues
      (DirScraper.run_step fsRoot scraperRoot (Event.key_char 'q' true)).1 = false := by
  decide

/-- Claim C3: REFUTED by the code. set_selected(5) on a 3-entry list does
not return a recoverable IndexOutOfRange error: the source asserts
0 <= idx < len and panics. -/
theorem claim3_set_selected_panics :
    roverABC.len = 3 ∧
    (roverABC.set_selected 5).2 = Res.panic ∧
    (roverABC.set_selected 2).2 = Res.ok := by
  decide

/-- Claim C8: REFUTED by the code. Listing the filesystem root (a path
with no parent) produces a synthetic Parent entry whose target is the
root itself, via path.parent().unwrap_or(path). -/
theorem claim8_parent_at_root :
    fsRoot.pathExists [] = true ∧ fsRoot.isDir [] = true ∧
    Path.parent [] = none ∧
    DirScraper.read_dir fsRoot [] =
      Except.ok [ListEntry.parent [],
        { dir_entry := ["a"], kind := ListEntryKind.File }] ∧
    (ListEntry.parent []).dir_entry = ([] : Path) := by
  exact ⟨by decide, by decide, rfl, rfl, rfl⟩

/-- Claim C4, counterexample: at directory d with pivot 1 pointing at the
subdirectory entry d/sub, execute_entry followed by to_parent_entry
returns to current_path d but with pivot 0, not the original pivot 1:
the pivot-history restoration is absent from the code. -/
theorem claim4_counterexample :
    scraperD.rover.ctx.pivot = some 1 ∧
    (DirScraper.execute_entry fsD scraperD).2.1 = Res.ok ∧
    (DirScraper.to_parent_entry fsD (DirScraper.execute_entry fsD scraperD).1).2
      = Res.ok ∧
    (DirScraper.to_parent_entry fsD
      (DirScraper.execute_entry fsD scraperD).1).1.current_path
      = some (["d"] : Path) ∧
    (DirScraper.to_parent_entry fsD
      (DirScraper.execute_entry fsD scraperD).1).1.rover.ctx.pivot = some 0 ∧
    some 0 ≠ scraperD.rover.ctx.pivot := by
  decide

/-- Claim C5: shift wraps cyclically: Up from 0 goes to len - 1, Down from
len - 1 goes to 0, and every other pivot moves by exactly one in the
given direction; both shifts succeed on a non-empty list. -/
theorem claim5_shift_wraparound (r : Rover ListEntry) (p : Nat)
    (hp : r.ctx.pivot = some p) (hlen : 0 < r.len) (hplt : p < r.len) :
    (r.shift Direction.Up).2 = Res.ok ∧ (r.shift Direction.Down).2 = Res.ok ∧
    (r.shift Direction.Up).1.ctx.pivot =
      some (if p = 0 then r.len - 1 else p - 1) ∧
    (r.shift Direction.Down).1.ctx.pivot =
      some (if p = r.len - 1 then 0 else p + 1) := by
  have hl0 : ¬ r.len = 0 := by omega
  have hmod : (p + 1) % r.len = if p = r.len - 1 then 0 else p + 1 := by
    by_cases hl : p = r.len - 1
    · rw [if_pos hl, hl, Nat.sub_add_cancel hlen, Nat.mod_self]
    · rw [if_neg hl, Nat.mod_eq_of_lt (by omega)]
  refine ⟨?_, ?_, ?_, ?_⟩
  · by_cases h0 : p = 0 <;> simp [Rover.shift, hp, h0, hl0]
  · simp [Rover.shift, hp, hl0]
  · by_cases h0 : p = 0 <;> simp [Rover.shift, hp, h0, hl0]
  · simp [Rover.shift, hp, hl0, hmod]

/-- Claim C5, witness at a concrete 3-entry rover with pivot 0. -/
theorem claim5_shift_wraparound_witness :
    (roverABC.shift Direction.Up).2 = Res.ok ∧
    (roverABC.shift Direction.Down).2 = Res.ok ∧
    (roverABC.shift Direction.Up).1.ctx.pivot =
      some (if 0 = 0 then roverABC.len - 1 else 0 - 1) ∧
    (roverABC.shift Direction.Down).1.ctx.pivot =
      some (if 0 = roverABC.len - 1 then 0 else 0 + 1) :=
  claim5_shift_wraparound roverABC 0 rfl (by decide) (by decide)

/-- Claim C10: on a non-empty list with a valid pivot, shifting Up then
Down restores the pivot, and shifting Down then Up restores it too. -/
theorem claim10_shift_inverse (r : Rover ListEntry) (p : Nat)
    (hp : r.ctx.pivot = some p) (hlen : 0 < r.len) (hplt : p < r.len) :
    (((r.shift Direction.Up).1).shift Direction.Down).1.ctx.pivot = some p ∧
    (((r.shift Direction.Down).1).shift Direction.Up).1.ctx.pivot = some p := by
  have hl0 : r.len ≠ 0 := by omega
  constructor
  · by_cases h0 : p = 0
    · have h1 : (r.shift Direction.Up).1.ctx.pivot = some (r.len - 1) :=
        shift_up_pivot_zero r (h0 ▸ hp) hl0
      rw [shift_down_pivot _ (r.len - 1) h1 (by rw [shift_len_eq]; exact hl0),
        shift_len_eq, Nat.sub_add_cancel hlen, Nat.mod_self, h0]
    · have h1 : (r.shift Direction.Up).1.ctx.pivot = some (p - 1) :=
        shift_up_pivot_pos r p hp h0
      rw [shift_down_pivot _ (p - 1) h1 (by rw [shift_len_eq]; exact hl0),
        shift_len_eq, Nat.sub_add_cancel (Nat.pos_of_ne_zero h0),
        Nat.mod_eq_of_lt hplt]
  · have h1 : (r.shift Direction.Down).1.ctx.pivot = some ((p + 1) % r.len) :=
      shift_down_pivot r p hp hl0
    by_cases hl : p = r.len - 1
    · have hq : (p + 1) % r.len = 0 := by
        rw [hl, Nat.sub_add_cancel hlen, Nat.mod_self]
      rw [shift_up_pivot_zero _ (by rw [h1, hq]) (by rw [shift_len_eq]; exact hl0),
        shift_len_eq, ← hl]
    · have hq : (p + 1) % r.len = p + 1 := Nat.mod_eq_of_lt (by omega)
      have h1' : (r.shift Direction.Down).1.ctx.pivot = some (p + 1) := by
        rw [h1, hq]
      rw [shift_up_pivot_pos _ (p + 1) h1' (by omega), Nat.add_sub_cancel]

/-- Claim C10, witness at a concrete 3-entry rover with pivot 0. -/
theorem claim10_shift_inverse_witness :
    (((roverABC.shift Direction.Up).1).shift Direction.Down).1.ctx.pivot = some 0 ∧
    (((roverABC.shift Direction.Down).1).shift Direction.Up).1.ctx.pivot = some 0 :=
  claim10_shift_inverse roverABC 0 rfl (by decide) (by decide)

/-- Claim C4, amended: starting at directory D with the pivot on a
subdirectory entry, execute_entry followed by to_parent_entry succeeds
and returns to current_path D, but the pivot is reset to 0 rather than
restored to its pre-descent value (the code keeps no pivot history). -/
theorem claim4_roundtrip_amended (fs : FS) (s : DirScraper) (D : Path)
    (name : String) (l : List ListEntry) (p : Nat) (e : ListEntry)
    (_hcp : s.current_path = some D)
    (hcomp : s.rover.components = some l)
    (hpiv : s.rover.ctx.pivot = some p)
    (hsel : l[p]? = some e)
    (hkind : e.kind = ListEntryKind.Dir)
    (hpath : e.dir_entry = D ++ [name])
    (hex1 : fs.pathExists (D ++ [name]) = true)
    (hdir1 : fs.isDir (D ++ [name]) = true)
    (hex2 : fs.pathExists D = true)
    (hdir2 : fs.isDir D = true) :
    (DirScraper.to_parent_entry fs (DirScraper.execute_entry fs s).1).2 = Res.ok ∧
    (DirScraper.to_parent_entry fs
      (DirScraper.execute_entry fs s).1).1.current_path = some D ∧
    (DirScraper.to_parent_entry fs
      (DirScraper.execute_entry fs s).1).1.rover.ctx.pivot = some 0 := by
  have hselref : s.rover.selected_ref = some e := by
    simp [Rover.selected_ref, hcomp, hpiv, hsel]
  have hexec : (DirScraper.execute_entry fs s).1 =
      { s with current_path := some (D ++ [name]),
               rover := { components := some (ListEntry.parent
                              ((Path.parent (D ++ [name])).getD (D ++ [name])) ::
                              (fs.children (D ++ [name])).map (ListEntry.from_dir_entry fs)),
                          ctx := { s.rover.ctx with pivot := some 0 } } } := by
    simp only [DirScraper.execute_entry, hselref, hkind, hpath]
    rw [goto_valid fs s (D ++ [name]) hex1 hdir1]
  rw [hexec]
  simp only [DirScraper.to_parent_entry, parent_append_singleton]
  rw [goto_valid _ _ D hex2 hdir2]
  exact ⟨rfl, rfl, rfl⟩

/-- Claim C4, witness for the amended theorem at the concrete directory
d containing the subdirectory d/sub, pivot on the subdirectory. -/
theorem claim4_roundtrip_amended_witness :
    (DirScraper.to_parent_entry fsD (DirScraper.execute_entry fsD scraperD).1).2
      = Res.ok ∧
    (DirScraper.to_parent_entry fsD
      (DirScraper.execute_entry fsD scraperD).1).1.current_path = some (["d"] : Path) ∧
    (DirScraper.to_parent_entry fsD
      (DirScraper.execute_entry fsD scraperD).1).1.rover.ctx.pivot = some 0 :=
  claim4_roundtrip_amended fsD scraperD ["d"] "sub"
    [ListEntry.parent [],
     { dir_entry := ["d", "sub"], kind := ListEntryKind.Dir },
     { dir_entry := ["d", "f"], kind := ListEntryKind.File }] 1
    { dir_entry := ["d", "sub"], kind := ListEntryKind.Dir }
    rfl rfl rfl rfl rfl rfl (by decide) (by decide) (by decide) (by decide)

/-- Claim C6, counterexample: with capacity 1 and two entries, a single
shift Down moves the pivot to 1 while the offset stays 0 (the code
never recomputes the offset), so after the render the viewport
invariant offset <= pivot < offset + capacity is violated. -/
theorem claim6_counterexample :
    (roverTall.shift Direction.Down).2 = Res.ok ∧
    ((roverTall.shift Direction.Down).1.render).1 = (roverTall.shift Direction.Down).1 ∧
    ((roverTall.shift Direction.Down).1.render).2 ≠ none ∧
    (roverTall.shift Direction.Down).1.ctx.pivot = some 1 ∧
    (roverTall.shift Direction.Down).1.ctx.offset = 0 ∧
    (roverTall.shift Direction.Down).1.ctx.max_visible_rows = 1 ∧
    ¬(1 < (roverTall.shift Direction.Down).1.ctx.offset +
        (roverTall.shift Direction.Down).1.ctx.max_visible_rows) := by
  decide

/-- Claim C6, amended: render does not modify the rover state and no
shift ever modifies the offset, so after any sequence of shifts and a
render the offset still holds its initial value 0 and the lower half
offset <= pivot of the invariant holds; the upper half
pivot < offset + capacity is not maintained (and Rover::resize is an
unimplemented panic). -/
theorem claim6_viewport_amended (r : Rover ListEntry) (ds : List Direction)
    (h : r.ctx.offset = 0) :
    ((Rover.apply_shifts r ds).render).1 = Rover.apply_shifts r ds ∧
    (Rover.apply_shifts r ds).ctx.offset = 0 ∧
    (∀ p, (Rover.apply_shifts r ds).ctx.pivot = some p →
      (Rover.apply_shifts r ds).ctx.offset ≤ p) ∧
    (∀ w hh, (Rover.resize (Rover.apply_shifts r ds) w hh).2 = Res.panic) := by
  refine ⟨rfl, ?_, ?_, fun w hh => rfl⟩
  · rw [apply_shifts_offset, h]
  · intro p hp
    rw [apply_shifts_offset, h]
    exact Nat.zero_le p

/-- Claim C6, witness for the amended theorem at the concrete
one-row-capacity rover after a single shift Down. -/
theorem claim6_viewport_amended_witness :
    ((Rover.apply_shifts roverTall [Direction.Down]).render).1 =
      Rover.apply_shifts roverTall [Direction.Down] ∧
    (Rover.apply_shifts roverTall [Direction.Down]).ctx.offset = 0 ∧
    (∀ p, (Rover.apply_shifts roverTall [Direction.Down]).ctx.pivot = some p →
      (Rover.apply_shifts roverTall [Direction.Down]).ctx.offset ≤ p) ∧
    (∀ w hh, (Rover.resize (Rover.apply_shifts roverTall [Direction.Down]) w hh).2
      = Res.panic) :=
  claim6_viewport_amended roverTall [Direction.Down] rfl

/-- Claim C7: listing an existing directory yields exactly N + 1 entries
for N direct children; the first is the synthetic Parent entry and the
rest are one entry per child, classified Dir or File by the filesystem
metadata check. -/
theorem claim7_read_dir_shape (fs : FS) (path : Path)
    (hex : fs.pathExists path = true) (hdir : fs.isDir path = true) :
    ∃ l, DirScraper.read_dir fs path = Except.ok l ∧
      l.length = (fs.children path).length + 1 ∧
      l.head?.map ListEntry.kind = some ListEntryKind.Parent ∧
      l.tail = (fs.children path).map (ListEntry.from_dir_entry fs) ∧
      ∀ e ∈ l.tail, e.kind =
        (if fs.isDir e.dir_entry then ListEntryKind.Dir else ListEntryKind.File) := by
  refine ⟨ListEntry.parent ((Path.parent path).getD path) ::
      (fs.children path).map (ListEntry.from_dir_entry fs), ?_, ?_, rfl, rfl, ?_⟩
  · simp [DirScraper.read_dir, hex, hdir]
  · simp
  · intro e he
    simp only [List.tail_cons] at he
    rcases List.mem_map.mp he with ⟨c, _, rfl⟩
    rfl

/-- Claim C7, witness at the concrete directory d with two children. -/
theorem claim7_read_dir_shape_witness :
    ∃ l, DirScraper.read_dir fsD ["d"] = Except.ok l ∧
      l.length = (fsD.children ["d"]).length + 1 ∧
      l.head?.map ListEntry.kind = some ListEntryKind.Parent ∧
      l.tail = (fsD.children ["d"]).map (ListEntry.from_dir_entry fsD) ∧
      ∀ e ∈ l.tail, e.kind =
        (if fsD.isDir e.dir_entry then ListEntryKind.Dir else ListEntryKind.File) :=
  claim7_read_dir_shape fsD ["d"] (by decide) (by decide)

/-- Claim C9: when the entry list was never loaded, or the pivot is unset,
or the pivot is out of bounds, selected_ref is None and execute_entry
returns Ok with the whole state unchanged and nothing opened. -/
theorem claim9_execute_no_selection (fs : FS) (s : DirScraper)
    (h : s.rover.components = none ∨ s.rover.ctx.pivot = none ∨
      ∀ l p, s.rover.components = some l → s.rover.ctx.pivot = some p →
        l.length ≤ p) :
    s.rover.selected_ref = none ∧
    DirScraper.execute_entry fs s = (s, Res.ok, []) := by
  have hsel : s.rover.selected_ref = none := by
    unfold Rover.selected_ref
    rcases h with h | h | h
    · simp [h]
    · simp [h]
    · cases hc : s.rover.components with
      | none => rfl
      | some l =>
        cases hpv : s.rover.ctx.pivot with
        | none => rfl
        | some p =>
          simp [List.getElem?_eq_none (h l p hc hpv)]
  refine ⟨hsel, ?_⟩
  simp [DirScraper.execute_entry, hsel]

/-- Claim C9, witness at a scraper whose entry list was never loaded. -/
theorem claim9_execute_no_selection_witness :
    scraperUnloaded.rover.selected_ref = none ∧
    DirScraper.execute_entry fsFile scraperUnloaded =
      (scraperUnloaded, Res.ok, []) :=
  claim9_execute_no_selection fsFile scraperUnloaded (Or.inl rfl)

end RoverModel
